import Mathlib

/-!
Verification development for the grounded insurance-CSO dialogue engine
(`streamlit_app.py`).  The Python source is shallowly embedded: every pure
helper becomes an executable Lean definition, the per-turn LangGraph pipeline
becomes explicit state passing over a `Memo` (session memory) and a
`GraphState` (turn state), and the external services (Qdrant stores, the
embedding model, difflib's `SequenceMatcher.ratio`, `datetime.strptime`, the
LLM rephraser) are abstract parameters bundled in an environment record, since
they are library / network collaborators and not code of this repository.

Character-level modelling notes, used consistently below:
* Python `str` operations are modelled at ASCII fidelity (`Char.toUpper`,
  `Char.toLower`, `Char.isDigit`, `Char.isAlphanum`); every string constant in
  the source that these claims touch is ASCII apart from emojis, which pass
  through all the modelled operations unchanged.
* Python truthiness of an optional string (`None` and `""` are falsy) is
  modelled by `truthyS`; `a or b` on such values is `pyOr`.
* `dict` payloads from the external stores are modelled as association lists
  `List (String × Option String)` (a `none` value models Python `None`).
-/

set_option maxRecDepth 10000

namespace CSO

/-- Python whitespace for `str.strip` / `str.split` (ASCII set). -/
def isPyWS (c : Char) : Bool :=
  c = ' ' || c = '\t' || c = '\n' || c = '\r' || c = '\x0b' || c = '\x0c'

/-- Python `s.strip()`. -/
def pyStrip (s : String) : String :=
  String.mk (((s.toList.dropWhile isPyWS).reverse.dropWhile isPyWS).reverse)

/-- Python `s.upper()` (ASCII model). -/
def pyUpper (s : String) : String :=
  String.mk (s.toList.map Char.toUpper)

/-- Python `s.lower()` (ASCII model). -/
def pyLower (s : String) : String :=
  String.mk (s.toList.map Char.toLower)

/-- `norm(x) = str(x or "").strip()` from the source, on an optional string. -/
def pyNorm (x : Option String) : String :=
  pyStrip (x.getD "")

/-- `low(x) = norm(x).lower()` from the source, on an optional string. -/
def pyLowOpt (x : Option String) : String :=
  pyLower (pyNorm x)

/-- `low` applied to a plain string (the common case in the source). -/
def lowS (s : String) : String :=
  pyLowOpt (some s)

/-- Python truthiness of an optional string: `None` and `""` are falsy. -/
def truthyS : Option String → Bool
  | none => false
  | some s => s ≠ ""

/-- Python `a or b` for optional strings (returns `b` whenever `a` is falsy). -/
def pyOr (a b : Option String) : Option String :=
  if truthyS a then a else b

/-- Python `a or b` for plain strings. -/
def pyOrStr (a b : String) : String :=
  if a = "" then b else a

/-- Substring test on char lists (Python `needle in hay`). -/
def hasSubList (n : List Char) : List Char → Bool
  | [] => n.isEmpty
  | c :: t => n.isPrefixOf (c :: t) || hasSubList n t

/-- Python `needle in hay` for strings. -/
def hasSub (needle hay : String) : Bool :=
  hasSubList needle.toList hay.toList

/-- Index of the first occurrence of `n` in the hay (Python `str.find`),
scanning left to right. -/
def findSubIdx (n : List Char) : List Char → Option Nat
  | [] => if n.isEmpty then some 0 else none
  | c :: t =>
    if n.isPrefixOf (c :: t) then some 0
    else (findSubIdx n t).map (· + 1)

/-- One left-to-right, non-overlapping replacement pass (Python
`str.replace`).  The fuel is the length of the scanned list plus one; every
step of the source's uses has a nonempty needle, so fuel never runs out. -/
def replaceChars : Nat → List Char → List Char → List Char → List Char
  | 0, _, _, l => l
  | _ + 1, _, _, [] => []
  | fuel + 1, needle, rep, c :: t =>
    if needle.isPrefixOf (c :: t) then
      rep ++ replaceChars fuel needle rep ((c :: t).drop needle.length)
    else
      c :: replaceChars fuel needle rep t

/-- Python `s.replace(needle, rep)`. -/
def pyReplace (s needle rep : String) : String :=
  String.mk (replaceChars (s.toList.length + 1) needle.toList rep.toList s.toList)

/-- Python `s.split()` (split on whitespace runs, no empty pieces), with fuel. -/
def pyWordsAux : Nat → List Char → List String
  | 0, _ => []
  | _ + 1, [] => []
  | fuel + 1, c :: t =>
    if isPyWS c then pyWordsAux fuel t
    else
      String.mk ((c :: t).takeWhile (fun d => !isPyWS d)) ::
        pyWordsAux fuel ((c :: t).dropWhile (fun d => !isPyWS d))

/-- Python `s.split()`. -/
def pyWords (s : String) : List String :=
  pyWordsAux (s.toList.length + 1) s.toList

/-- Python `" ".join(s.split())` — collapse whitespace runs to single spaces. -/
def joinWords (s : String) : String :=
  String.intercalate " " (pyWords s)

/-- Python `str.capitalize()` (first char uppercased, rest lowered). -/
def pyCapitalize (s : String) : String :=
  match s.toList with
  | [] => ""
  | c :: t => String.mk (Char.toUpper c :: t.map Char.toLower)

/-- The character class `[A-Z0-9]` kept by `compact`. -/
def compactKeep (c : Char) : Bool :=
  ('A' ≤ c && c ≤ 'Z') || ('0' ≤ c && c ≤ '9')

/-- `compact(s)`: uppercase, then strip every character outside `[A-Z0-9]`
(source: `re.sub(r"[^A-Z0-9]", "", (s or "").upper())`). -/
def compact (s : String) : String :=
  String.mk ((s.toList.map Char.toUpper).filter compactKeep)

/-! ## Enumerations (the `Intent`, `RSMode` literals and decision statuses) -/

inductive Intent where
  | rs_search
  | policy_status
  | policy_plan_lookup
  | cashless_policy
  | limit_plan
  | claim_requirements
  | plan_benefit
  | provide_policy_number
  | unknown
deriving DecidableEq, Repr

inductive RSMode where
  | cashless
  | non_cashless
  | all
deriving DecidableEq, Repr

/-- The decision `status` strings used by `decision_node`. -/
inductive Status where
  | NEED_INPUT
  | NEED_CHOICE
  | FOUND
  | NOT_FOUND
  | MISSING_FIELD
  | UNKNOWN
deriving DecidableEq, Repr

/-! ## Dates (`datetime.date`, `parse_date_any`) -/

/-- A `datetime.date` value. -/
structure PyDate where
  y : Nat
  m : Nat
  d : Nat
deriving DecidableEq, Repr

/-- `a <= b` on dates (lexicographic, as for `datetime.date`). -/
def PyDate.le (a b : PyDate) : Bool :=
  a.y < b.y || (a.y = b.y && (a.m < b.m || (a.m = b.m && a.d ≤ b.d)))

/-- Gregorian validity as checked by the `datetime.date` constructor
(year 1–9999; `date(...)` raises otherwise, which `parse_date_any` catches). -/
def isValidDate (y m d : Nat) : Bool :=
  let leap := (y % 4 = 0 && y % 100 ≠ 0) || y % 400 = 0
  let dim : Nat :=
    if m = 2 then (if leap then 29 else 28)
    else if m = 4 || m = 6 || m = 9 || m = 11 then 30
    else 31
  1 ≤ y && y ≤ 9999 && 1 ≤ m && m ≤ 12 && 1 ≤ d && d ≤ dim

/-- Decimal value of a digit-char list. -/
def digitsToNat (l : List Char) : Nat :=
  l.foldl (fun acc c => acc * 10 + (c.toNat - '0'.toNat)) 0

/-- The loose fallback scan: `re.search` of four digits, a separator (dash or
slash), two digits, a separator, two digits — at each position try exactly
that shape (the pattern carries no word boundaries). -/
def dateScan : List Char → Option (Nat × Nat × Nat)
  | [] => none
  | c :: t =>
    let l := c :: t
    let hit :=
      match l with
      | a :: b :: c' :: d :: s₁ :: e :: f :: s₂ :: g :: h :: _ =>
        if a.isDigit && b.isDigit && c'.isDigit && d.isDigit &&
           (s₁ = '-' || s₁ = '/') && e.isDigit && f.isDigit &&
           (s₂ = '-' || s₂ = '/') && g.isDigit && h.isDigit then
          some (digitsToNat [a, b, c', d], digitsToNat [e, f], digitsToNat [g, h])
        else none
      | _ => none
    match hit with
    | some r => some r
    | none => dateScan t

/-- The fixed `strptime` format strings tried by `parse_date_any`. -/
def dateFmts : List String :=
  ["%Y-%m-%d", "%d-%m-%Y", "%d/%m/%Y", "%Y/%m/%d", "%d %m %Y", "%Y.%m.%d"]

/-- `parse_date_any(v)`.  `strp fmt s` abstracts stdlib
`datetime.strptime(s, fmt).date()` (returning `none` on the caught raise). -/
def parse_date_any (strp : String → String → Option PyDate) (v : Option String) :
    Option PyDate :=
  let s := pyNorm v
  if s = "" then none
  else
    match dateFmts.findSome? (fun f => strp f s) with
    | some dte => some dte
    | none =>
      match dateScan s.toList with
      | some (y, mo, dy) => if isValidDate y mo dy then some ⟨y, mo, dy⟩ else none
      | none => none

/-! ## Policy-number canonicalization and variants -/

/-- `normalize_no_polis(raw)`. -/
def normalize_no_polis (raw : String) : String :=
  if raw = "" then raw else compact raw

/-- The anchored match `re.match(r"^([A-Z]{2,6})(\d+)$", c)`: an uppercase
run of length 2–6 followed by a nonempty all-digit tail.  (The regex admits
no other split: `[A-Z]` cannot match a digit nor `\d` a letter.) -/
def splitLettersDigits (s : String) : Option (String × String) :=
  let l := s.toList
  let pre := l.takeWhile (fun c => 'A' ≤ c && c ≤ 'Z')
  let rest := l.drop pre.length
  if 2 ≤ pre.length && pre.length ≤ 6 && !rest.isEmpty && rest.all Char.isDigit then
    some (String.mk pre, String.mk rest)
  else none

/-- Keep-first deduplication (models the Python `set` of variants; the
source iterates the set in an unspecified order, and no claim depends on
the order among distinct variants). -/
def dedupKeepFirst : List String → List String
  | [] => []
  | x :: t => x :: (dedupKeepFirst t).filter (· ≠ x)

/-- `no_polis_variants(raw)`. -/
def no_polis_variants (raw : String) : List String :=
  if raw = "" then []
  else
    let raw_u := pyUpper (pyStrip raw)
    let c := normalize_no_polis raw_u
    let extra :=
      match splitLettersDigits c with
      | some (pre, digits) =>
        let dl := digits.toList
        (if dl.length ≥ 7 then
           [pre ++ "-" ++ String.mk (dl.take 3) ++ "-" ++ String.mk (dl.drop 3),
            pre ++ digits]
         else []) ++
        (if dl.length ≥ 6 then
           [pre ++ "-" ++ String.mk (dl.take 2) ++ "-" ++ String.mk (dl.drop 2)]
         else [])
      | none => []
    (dedupKeepFirst ([raw_u, c] ++ extra)).filter (· ≠ "")

/-! ## The entity-extraction regular expressions

`extract_entities` scans `text.upper()` with
`\b([A-Z]{2,6}\-?\d{2,6}\-?\d{0,4}|\d{6,})\b` and `extract_city` scans the
lowered text with per-city word-boundary patterns.  The matchers below
implement exactly those patterns (leftmost match, first alternative
preferred, greedy quantifiers with backtracking); where backtracking
collapses to a single candidate, a comment records the argument. -/

/-- `\w` of Python `re` (ASCII model): alphanumeric or underscore. -/
def isWordChar (c : Char) : Bool :=
  c.isAlphanum || c = '_'

/-- Word-ness of the first char of the remaining input (end counts non-word). -/
def wordAt : List Char → Bool
  | [] => false
  | c :: _ => isWordChar c

/-- `\b` between a just-matched char (of word-ness `lastWord`) and the rest. -/
def boundaryAfter (lastWord : Bool) (rest : List Char) : Bool :=
  lastWord != wordAt rest

/-- Length of the leading digit run. -/
def digitRunLen (l : List Char) : Nat :=
  (l.takeWhile Char.isDigit).length

/-- `[hi, hi-1, …, lo]` — the greedy backtracking order of a counted
quantifier. -/
def descRange (hi lo : Nat) : List Nat :=
  ((List.range (hi + 1)).filter (fun k => lo ≤ k)).reverse

/-- Match `\d{0,4}\b` at `l`; `lastWord` is the word-ness of the char matched
just before `l`.  Returns the number of chars consumed. -/
def tailDigits4 (lastWord : Bool) (l : List Char) : Option Nat :=
  let r2 := min 4 (digitRunLen l)
  (descRange r2 0).findSome? fun k2 =>
    let lw := if k2 = 0 then lastWord else true
    if boundaryAfter lw (l.drop k2) then some k2 else none

/-- Match `\d{2,6}\-?\d{0,4}\b` at `l`.  Returns the chars consumed. -/
def digitsTail (l : List Char) : Option Nat :=
  let r1 := min 6 (digitRunLen l)
  (descRange r1 2).findSome? fun k1 =>
    let l1 := l.drop k1
    match l1 with
    | '-' :: l2 =>
      (match tailDigits4 false l2 with
       | some k2 => some (k1 + 1 + k2)
       | none => (tailDigits4 true l1).map (k1 + ·))
    | _ => (tailDigits4 true l1).map (k1 + ·)

/-- First alternative `[A-Z]{2,6}\-?\d{2,6}\-?\d{0,4}` (with the trailing
`\b`) anchored at `l`.  A letter count shorter than the full uppercase run
would leave a letter where `\-?\d{2,6}` must match, which is impossible, so
only the full run (when its length is 2–6) is a candidate; likewise when a
dash follows the letters, skipping it would leave `-` where `\d{2,6}` must
match, so the dash must be consumed. -/
def altLettersDigits (l : List Char) : Option Nat :=
  let r := (l.takeWhile (fun c => 'A' ≤ c && c ≤ 'Z')).length
  if 2 ≤ r && r ≤ 6 then
    let rest := l.drop r
    match rest with
    | '-' :: l2 =>
      (match digitsTail l2 with
       | some n => some (r + 1 + n)
       | none => none)
    | _ => (digitsTail rest).map (r + ·)
  else none

/-- Second alternative `\d{6,}` (with the trailing `\b`) anchored at `l`.
`\d{6,}` is greedy; any shorter take leaves a digit (a word char) right after
the match, failing the boundary, so only the full run is a candidate. -/
def altLongDigits (l : List Char) : Option Nat :=
  let r := digitRunLen l
  if 6 ≤ r && boundaryAfter true (l.drop r) then some r else none

/-- `re.search` of the policy-number pattern: leftmost position wins and the
first alternative is preferred at equal positions; the leading `\b` requires
a non-word char (or the string start) before the match. -/
def polisScan (prev : Option Char) : List Char → Option String
  | [] => none
  | c :: t =>
    let bOk := match prev with | none => true | some pc => !isWordChar pc
    let hit :=
      if bOk then
        match altLettersDigits (c :: t) with
        | some n => some n
        | none => altLongDigits (c :: t)
      else none
    match hit with
    | some n => some (String.mk ((c :: t).take n))
    | none => polisScan (some c) t

/-- `re.search(r"\bWORD\b", l)` for an all-letter word. -/
def wordSearch (w : List Char) (prev : Option Char) : List Char → Bool
  | [] => false
  | c :: t =>
    let bOk := match prev with | none => true | some pc => !isWordChar pc
    (bOk && w.isPrefixOf (c :: t) && boundaryAfter true ((c :: t).drop w.length))
    || wordSearch w (some c) t

/-- Whitespace or dash, the class `[\s\-]`. -/
def isWSorDash (c : Char) : Bool :=
  isPyWS c || c = '-'

/-- Anchored `di[\s\-]*CITY\b` at `l`.  `[\s\-]*` is greedy with
backtracking, but the city starts with a letter, so only the full
whitespace/dash run can precede a match. -/
def cityAfterDi (city l : List Char) : Bool :=
  match l with
  | 'd' :: 'i' :: rest =>
    let l3 := rest.dropWhile isWSorDash
    city.isPrefixOf l3 && boundaryAfter true (l3.drop city.length)
  | _ => false

/-- The `\bdi[\s\-]*CITY\b` branch of the first city pattern, searched. -/
def citySearchDi (city : List Char) (prev : Option Char) : List Char → Bool
  | [] => false
  | c :: t =>
    let bOk := match prev with | none => true | some pc => !isWordChar pc
    (bOk && cityAfterDi city (c :: t)) || citySearchDi city (some c) t

/-- The `^CITY\b` branch of the first city pattern (only at position 0, with
no boundary requirement before the city). -/
def cityAtStart (city l : List Char) : Bool :=
  city.isPrefixOf l && boundaryAfter true (l.drop city.length)

def KNOWN_CITIES : List String :=
  ["jakarta", "bandung", "surabaya", "medan", "semarang", "yogyakarta",
   "makassar", "denpasar"]

/-- `extract_city(text)`. -/
def extract_city (text : String) : Option String :=
  let t := lowS text
  let tl := t.toList
  match KNOWN_CITIES.find? (fun c =>
      let cl := c.toList
      (cityAtStart cl tl || citySearchDi cl none tl) || wordSearch cl none tl) with
  | some c => some (pyCapitalize c)
  | none => if hasSub "dki jakarta" t then some "Jakarta" else none

/-- The three slot candidates produced by `extract_entities`. -/
structure Ents where
  no_polis : Option String
  kota : Option String
  plan_asked : Option String
deriving DecidableEq, Repr

/-- `extract_entities(text)`.  The tier regexes run case-insensitively on the
raw text, modelled by lowering the chars (which moves no ASCII boundary). -/
def extract_entities (text : String) : Ents :=
  let lowered := text.toList.map Char.toLower
  { no_polis := polisScan none (pyUpper text).toList
    kota := extract_city text
    plan_asked :=
      if wordSearch "platinum".toList none lowered then some "Platinum"
      else if wordSearch "gold".toList none lowered then some "Gold"
      else if wordSearch "silver".toList none lowered then some "Silver"
      else none }

/-! ## Normalization helpers for intent classification -/

/-- `normalize_reimburse_words(text)`: lower (with strip, via `low`), then
five sequential `str.replace` passes. -/
def normalize_reimburse_words (text : String) : String :=
  let t := lowS text
  let t := pyReplace t "rembures" "reimburse"
  let t := pyReplace t "reimbures" "reimburse"
  let t := pyReplace t "remburse" "reimburse"
  let t := pyReplace t "reimburs" "reimburse"
  pyReplace t "reimbus" "reimburse"

/-- `cashless_to_ya_tidak(v)`. -/
def cashless_to_ya_tidak (v : Option String) : String :=
  let s := pyLowOpt v
  if s = "ya" || s = "y" || s = "true" || s = "1" then "Ya"
  else if s = "tidak" || s = "t" || s = "no" || s = "false" || s = "0" then "Tidak"
  else "-"

def FILLER_WORDS : List String :=
  ["klo", "kalau", "kalo", "ini", "itu", "ya", "yah", "deh", "dong", "nih",
   "gimana", "maksudnya"]

/-- `extract_policy_like_text(user_text)`: lower, blank out every char that
is neither word, whitespace nor dash, split, drop filler words, re-join. -/
def extract_policy_like_text (user_text : String) : String :=
  let t := lowS user_text
  let t2 := String.mk (t.toList.map fun c =>
    if isWordChar c || isPyWS c || c = '-' then c else ' ')
  let toks := (pyWords t2).filter (fun x => x ≠ "" && !FILLER_WORDS.contains x)
  String.intercalate " " toks

/-- `detect_rs_mode(q)`. -/
def detect_rs_mode (q : String) : Option RSMode :=
  let t := normalize_reimburse_words q
  if ["gak cashless", "ga cashless", "tidak cashless", "non cashless",
      "reimburse", "reimbursement", "refund"].any (fun x => hasSub x t) then
    some RSMode.non_cashless
  else if hasSub "cashless" t then some RSMode.cashless
  else none

/-- `is_policy_only_with_fillers(user_text, no_polis)`. -/
def is_policy_only_with_fillers (user_text no_polis : String) : Bool :=
  let core := extract_policy_like_text user_text
  hasSub (compact no_polis) (compact core) &&
    (compact core).length ≤ (compact no_polis).length + 2

/-! ## Session memory and turn state -/

/-- The per-session `st.session_state.memo` dict. -/
structure Memo where
  no_polis : Option String
  kota : Option String
  pending_slot : Option String
  last_intent : Option Intent
  last_rs_mode : RSMode
  topics : List String
  nasabah_key_no_polis : Option String
  pending_plan_for_benefit : Option String
  greeted : Bool
deriving DecidableEq, Repr

/-- `memo_set(k, v)`: writes only a truthy value.  The engine calls it only
with the two slot keys `"no_polis"` and `"kota"`, matched here. -/
def memo_set (m : Memo) (k : String) (v : Option String) : Memo :=
  if truthyS v then
    match k with
    | "no_polis" => { m with no_polis := v }
    | "kota" => { m with kota := v }
    | _ => m
  else m

/-- `memo_add_topic(topic)`: dedup append, bounded to the last 10. -/
def memo_add_topic (m : Memo) (topic : String) : Memo :=
  if topic ≠ "" && !m.topics.contains topic then
    let ts := m.topics ++ [topic]
    { m with topics := ts.drop (ts.length - 10) }
  else m

/-- An external-store record payload: a string-keyed map whose values may be
Python `None`. -/
abbrev Payload := List (String × Option String)

/-- `payload.get(k)`: `none` models a missing key. -/
def assocGet (pl : Payload) (k : String) : Option (Option String) :=
  (pl.find? (fun kv => kv.1 = k)).map (·.2)

/-- A retrieved policy-document chunk as built by `tool_rag_polis`. -/
structure Evidence where
  page : Option String
  source : Option String
  text : String
deriving DecidableEq, Repr

/-- The structured decision record; absent dict keys are `none` / `[]`. -/
structure RSItem where
  nama_rs : Option String
  cashless : String
deriving DecidableEq, Repr

structure Decision where
  intent : Intent
  status : Status
  need : List String := []
  no_polis : Option String := none
  no_polis_input : Option String := none
  status_polis : Option String := none
  plan : Option String := none
  metode_klaim : Option String := none
  can_cashless : Option Bool := none
  kota : Option String := none
  rs_mode : Option RSMode := none
  rs_items : List RSItem := []
  source : Option String := none
  page : Option String := none
  quote : Option String := none
deriving DecidableEq, Repr

/-- The LangGraph turn state (`GraphState`, `total=False`).  Only
`user_query` is set when a turn starts; `intent` and `rs_mode` are read only
after `supervisor_node` assigns them, so their initial values (`unknown`,
`all`) model the absent keys. -/
structure GraphState where
  user_query : String
  intent : Intent := Intent.unknown
  no_polis : Option String := none
  kota : Option String := none
  plan_asked : Option String := none
  rs_mode : RSMode := RSMode.all
  missing_fields : List String := []
  nasabah : Option Payload := none
  rs_list : Option (List Payload) := none
  polis_evidence : Option (List Evidence) := none
  decision : Option Decision := none
  answer : String := ""
deriving DecidableEq, Repr

/-- `state.get(f)` for the three slot field names used by
`required_fields`. -/
def getSlotField (s : GraphState) : String → Option String
  | "kota" => s.kota
  | "no_polis" => s.no_polis
  | "plan_asked" => s.plan_asked
  | _ => none

/-- `apply_slot_filling(user_text, state)`: `pending` is read once at entry
(as in the source), then each armed slot is filled from the extracted
entities and the pending slot cleared. -/
def apply_slot_filling (user_text : String) (m : Memo) (s : GraphState) :
    GraphState × Memo :=
  let pending := m.pending_slot
  let ents := extract_entities user_text
  let sm₁ :=
    if pending = some "kota" && truthyS ents.kota then
      ({ s with kota := ents.kota }, { m with pending_slot := none })
    else (s, m)
  let sm₂ :=
    if pending = some "no_polis" && truthyS ents.no_polis then
      ({ sm₁.1 with no_polis := ents.no_polis }, { sm₁.2 with pending_slot := none })
    else sm₁
  if pending = some "plan_asked" && truthyS ents.plan_asked then
    ({ sm₂.1 with plan_asked := ents.plan_asked }, { sm₂.2 with pending_slot := none })
  else sm₂

/-! ## Intent classifier -/

/-- `classify_intent(q)` — the priority cascade, reading `pending_slot` and
`last_intent` from the session memo. -/
def classify_intent (m : Memo) (q : String) : Intent :=
  let t := normalize_reimburse_words q
  let ents := extract_entities q
  if m.pending_slot ≠ none then m.last_intent.getD Intent.unknown
  else if truthyS ents.no_polis &&
      is_policy_only_with_fillers q (ents.no_polis.getD "") then
    Intent.provide_policy_number
  else if (["manfaat plan", "benefit plan", "dapet apa", "dapat apa",
            "benefitnya", "manfaatnya"].any (fun x => hasSub x t)) &&
          (["silver", "gold", "platinum"].any (fun p => hasSub p t)) then
    Intent.plan_benefit
  else if ["persyaratan klaim", "syarat klaim", "dokumen klaim", "cara klaim",
           "klaim", "claim", "reimburse", "reimbursement"].any
            (fun k => hasSub k t) then
    Intent.claim_requirements
  else if ["masih hidup", "masih aktif", "aktif?", "status polis",
           "polis saya aktif", "apakah masih aktif"].any (fun k => hasSub k t) then
    Intent.policy_status
  else if ["rs", "rumah sakit", "rs rekanan", "rekomendasi rs"].any
            (fun x => hasSub x t) then
    Intent.rs_search
  else if ["plan apa", "termasuk plan", "plan saya", "masuk plan apa"].any
            (fun x => hasSub x t) then
    Intent.policy_plan_lookup
  else if hasSub "cashless" t then Intent.cashless_policy
  else if hasSub "limit" t &&
          (["platinum", "gold", "silver"].any (fun p => hasSub p t)) then
    Intent.limit_plan
  else Intent.unknown

/-- `required_fields(intent)`. -/
def required_fields : Intent → List String
  | Intent.rs_search => ["kota"]
  | Intent.policy_status => ["no_polis"]
  | Intent.policy_plan_lookup => ["no_polis"]
  | Intent.cashless_policy => ["no_polis"]
  | Intent.limit_plan => ["plan_asked"]
  | Intent.plan_benefit => ["plan_asked"]
  | _ => []

/-! ## Fuzzy field-alias resolution

`similar(a, b)` is difflib's `SequenceMatcher.ratio()`, an external library
routine, abstracted as a parameter `sim`; `find_value_by_alias`'s own control
flow (strict-improvement scan in dict order, the 0.66 acceptance floor, the
empty-value downgrade) is embedded concretely. -/

/-- The inner double loop of `find_value_by_alias`: best key under strict
score improvement, scanning keys then aliases in order. -/
def bestAliasKey (sim : String → String → Rat) (pl : Payload)
    (aliases : List String) : Option String × Rat :=
  pl.foldl (fun acc kv =>
    aliases.foldl (fun acc' a =>
      let sc := sim kv.1 a
      if sc > acc'.2 then (some kv.1, sc) else acc') acc) (none, 0)

/-- `find_value_by_alias(payload, aliases)` → `(key, value, score)`. -/
def find_value_by_alias (sim : String → String → Rat) (pl : Payload)
    (aliases : List String) : Option String × Option String × Rat :=
  if pl.isEmpty then (none, none, 0)
  else
    let bk := bestAliasKey sim pl aliases
    match bk.1 with
    | some k =>
      if k ≠ "" && bk.2 ≥ (66 : Rat) / 100 then
        match assocGet pl k with
        | some vo =>
          if vo = none || pyNorm vo = "" then (some k, none, bk.2)
          else (some k, vo, bk.2)
        | none => (some k, none, bk.2)
      else (none, none, bk.2)
    | none => (none, none, bk.2)

/-! ## Plan-section extraction and the limit-chunk picker -/

/-- Anchored `PLANU\b\s+(.{0,220})` at `l`, case-insensitive on the plan
chars.  The tier name ends in a word char, so the `\b` plus `\s+` amount to:
the next char exists and is whitespace; `\s+` is greedy and the group also
accepts whitespace, so the full whitespace run is consumed before the group
(up to 220 chars) starts. -/
def planLineAt (planU l : List Char) : Option (List Char) :=
  let n := planU.length
  if (l.take n).map Char.toLower = planU.map Char.toLower then
    match l.drop n with
    | c :: rest =>
      if isPyWS c then some (((c :: rest).dropWhile isPyWS).take 220) else none
    | [] => none
  else none

/-- Search for the plan line, with the leading `\b` (the tier name starts
with a word char, so the previous char must be non-word or absent). -/
def planLineSearch (planU : List Char) (prev : Option Char) :
    List Char → Option (List Char)
  | [] => none
  | c :: t =>
    let bOk := match prev with | none => true | some pc => !isWordChar pc
    match (if bOk then planLineAt planU (c :: t) else none) with
    | some g => some g
    | none => planLineSearch planU (some c) t

/-- `extract_only_plan_section(text, plan)`. -/
def extract_only_plan_section (text plan : String) : String :=
  if text = "" then ""
  else
    let t := joinWords text
    let planU := pyUpper (pyStrip plan)
    if planU = "" then ""
    else
      match planLineSearch planU.toList none t.toList with
      | some g => pyStrip (planU ++ " " ++ String.mk g)
      | none =>
        match findSubIdx (pyLower plan).toList (pyLower t).toList with
        | some idx =>
          let tl := t.toList
          let start := idx - 120
          let stop := min tl.length (idx + 220)
          pyStrip (String.mk ((tl.drop start).take (stop - start)))
        | none => ""

/-- `pick_best_limit_chunk(evs, plan)`. -/
def pick_best_limit_chunk (evs : List Evidence) (plan : String) :
    Option Evidence :=
  let plan_l := lowS plan
  let best := evs.foldl (fun acc e =>
    let txt := lowS e.text
    if txt = "" then acc
    else
      let score : Int :=
        (if plan_l ≠ "" && hasSub plan_l txt then 3 else 0) +
        (if hasSub "limit" txt then 2 else 0) +
        (if hasSub "tahunan" txt then 2 else 0) +
        (if hasSub "rawat" txt || hasSub "icu" txt then 1 else 0) +
        (if hasSub "rp" txt then 2 else 0)
      if score > acc.2 then (some e, score) else acc)
    ((none : Option Evidence), (-1 : Int))
  if best.2 ≥ 4 then best.1 else none

/-! ## Lookup adapters

The two Qdrant collections and the embedding service are external; a query
against them is modelled as an `Except Unit _` value — `Except.error ()` is a
raised transport/query exception at that call, `Except.ok` its normal
return.  For the customer store, `ok none` is "no hits" and `ok (some p)` a
hit whose payload is `p` (Python then checks the payload's truthiness). -/

structure LookupEnv where
  nasabahScroll : String → String → Except Unit (Option Payload)
  nasabahSemantic : String → Except Unit (Option Payload)

/-- Result dict of `tool_lookup_nasabah`, plus one piece of ghost
instrumentation (`semanticUsed`, not a field of the Python dict) recording
whether control reached the semantic fallback. -/
structure LookupResult where
  found : Bool
  nasabah : Option Payload
  tried : List String
  key_used : String
  semanticUsed : Bool
deriving Repr

/-- The variant loop of `tool_lookup_nasabah`: first variant whose exact
query returns a hit with a truthy payload; exceptions and misses fall
through to the next variant. -/
def firstVariantHit (store : String → String → Except Unit (Option Payload))
    (key : String) : List String → Option Payload
  | [] => none
  | v :: rest =>
    match store key v with
    | Except.ok (some p) =>
      if p.isEmpty then firstVariantHit store key rest else some p
    | _ => firstVariantHit store key rest

/-- `tool_lookup_nasabah(no_polis_raw)`. -/
def tool_lookup_nasabah (env : LookupEnv) (m : Memo) (no_polis_raw : String) :
    LookupResult :=
  let key := match m.nasabah_key_no_polis with
    | some k => if k = "" then "no_polis" else k
    | none => "no_polis"
  let tried := no_polis_variants no_polis_raw
  match firstVariantHit env.nasabahScroll key tried with
  | some p =>
    { found := true, nasabah := some p, tried := tried, key_used := key,
      semanticUsed := false }
  | none =>
    match env.nasabahSemantic (normalize_no_polis no_polis_raw) with
    | Except.ok (some p) =>
      if p.isEmpty then
        { found := false, nasabah := none, tried := tried, key_used := key,
          semanticUsed := true }
      else
        { found := true, nasabah := some p, tried := tried, key_used := key,
          semanticUsed := true }
    | _ =>
      { found := false, nasabah := none, tried := tried, key_used := key,
        semanticUsed := true }

/-- `pl.get(k)` flattened: a missing key behaves as Python `None`. -/
def pyGetStr (pl : Payload) (k : String) : Option String :=
  match assocGet pl k with
  | some v => v
  | none => none

/-- The name-alias chain `pl.get("nama_rs") or pl.get("nama") or
pl.get("rumah_sakit") or pl.get("rs")`. -/
def rsName (pl : Payload) : Option String :=
  pyOr (pyGetStr pl "nama_rs")
    (pyOr (pyGetStr pl "nama")
      (pyOr (pyGetStr pl "rumah_sakit") (pyGetStr pl "rs")))

/-- The `must` filter built by `tool_lookup_rs`. -/
def rsFilter (kota : String) (rs_mode : RSMode) : List (String × String) :=
  [("kota", kota)] ++
    (match rs_mode with
     | RSMode.cashless => [("cashless", "Ya")]
     | RSMode.non_cashless => [("cashless", "Tidak")]
     | RSMode.all => [])

/-- `tool_lookup_rs(kota, rs_mode)`: any store exception yields `[]`. -/
def tool_lookup_rs
    (rsScroll : List (String × String) → Except Unit (List Payload))
    (kota : String) (rs_mode : RSMode) : List Payload :=
  match rsScroll (rsFilter kota rs_mode) with
  | Except.error _ => []
  | Except.ok hits =>
    let payloads := hits.filter (fun p => !p.isEmpty)
    let cleaned := payloads.filter (fun pl => truthyS (rsName pl))
    cleaned.take 10

/-! ## The routing graph nodes -/

/-- The environment of external collaborators for one turn.  `ragStore`
abstracts `tool_rag_polis` (embedding call + semantic query + payload
projection to `{page, source, text}`); `sim` is difflib's ratio; `strp` is
`datetime.strptime`; `rephrase` the LLM rephrasing call. -/
structure Env where
  lookup : LookupEnv
  rsScroll : List (String × String) → Except Unit (List Payload)
  ragStore : String → Nat → List Evidence
  sim : String → String → Rat
  strp : String → String → Option PyDate
  today : PyDate
  use_llm_rephrase : Bool
  rephrase : String → Except Unit (Option String)

/-- `x or ""` for an optional string. -/
def optOrEmpty (o : Option String) : String :=
  if truthyS o then o.getD "" else ""

/-- `supervisor_node`: slot filling, memory merge, classification, memory
writes, rs-mode stickiness.  (The `debug` dict is UI-only and omitted.) -/
def supervisor_node (m : Memo) (s : GraphState) : GraphState × Memo :=
  let q := s.user_query
  let sm := apply_slot_filling q m s
  let ents := extract_entities q
  let s₂ := { sm.1 with
    no_polis := pyOr (pyOr sm.1.no_polis ents.no_polis) sm.2.no_polis,
    kota := pyOr (pyOr sm.1.kota ents.kota) sm.2.kota,
    plan_asked := pyOr sm.1.plan_asked ents.plan_asked }
  let it := classify_intent sm.2 q
  let s₃ := { s₂ with intent := it }
  let m₂ := { sm.2 with last_intent := some it }
  let m₃ := memo_set m₂ "no_polis" s₃.no_polis
  let m₄ := memo_set m₃ "kota" s₃.kota
  let sm₅ :=
    match detect_rs_mode q with
    | some r => ({ s₃ with rs_mode := r }, { m₄ with last_rs_mode := r })
    | none => ({ s₃ with rs_mode := m₄.last_rs_mode }, m₄)
  let m₆ :=
    if sm₅.1.intent = Intent.plan_benefit && truthyS sm₅.1.plan_asked then
      { sm₅.2 with pending_plan_for_benefit := sm₅.1.plan_asked }
    else sm₅.2
  (sm₅.1, m₆)

/-- `requirements_node`: missing fields and the pending-slot arming. -/
def requirements_node (m : Memo) (s : GraphState) : GraphState × Memo :=
  let need := required_fields s.intent
  let missing := need.filter (fun f => !truthyS (getSlotField s f))
  ({ s with missing_fields := missing }, { m with pending_slot := missing.head? })

/-- `nasabah_node`. -/
def nasabah_node (env : Env) (m : Memo) (s : GraphState) : GraphState :=
  let s₁ := { s with nasabah := none }
  if truthyS s₁.no_polis then
    let res := tool_lookup_nasabah env.lookup m (s₁.no_polis.getD "")
    { s₁ with nasabah := res.nasabah }
  else s₁

/-- `rs_node`. -/
def rs_node (env : Env) (s : GraphState) : GraphState :=
  if truthyS s.kota then
    { s with rs_list := some (tool_lookup_rs env.rsScroll (s.kota.getD "") s.rs_mode) }
  else { s with rs_list := some [] }

/-- `polis_node`: per-intent hand-tuned retrieval queries. -/
def polis_node (env : Env) (m : Memo) (s : GraphState) : GraphState :=
  match s.intent with
  | Intent.claim_requirements =>
    let q := "prosedur klaim cara klaim langkah klaim dokumen klaim formulir klaim resume medis kwitansi rincian biaya batas waktu pengajuan klaim cashless verifikasi rumah sakit rekanan klaim reimbursement"
    { s with polis_evidence := some (env.ragStore q 35) }
  | Intent.limit_plan =>
    let plan := optOrEmpty s.plan_asked
    let q1 := "BAB IV LIMIT DAN PLAN " ++ plan ++ " Limit Tahunan Rawat Inap ICU Rawat Jalan Rp"
    let evs := env.ragStore q1 35
    (match pick_best_limit_chunk evs plan with
     | none =>
       let q2 := "LIMIT DAN PLAN " ++ plan ++ " Limit Tahunan Rp Rawat"
       { s with polis_evidence := some (env.ragStore q2 40) }
     | some _ => { s with polis_evidence := some evs })
  | Intent.plan_benefit =>
    let plan := optOrEmpty (pyOr s.plan_asked m.pending_plan_for_benefit)
    let q := "manfaat " ++ plan ++ " plan " ++ plan ++ " rawat inap rawat jalan icu manfaat tambahan"
    { s with polis_evidence := some (env.ragStore q 40) }
  | _ => { s with polis_evidence := some (env.ragStore s.user_query 30) }

/-! ## Decision synthesizer -/

def claimKeywordList : List String :=
  ["klaim", "claim", "cashless", "reimbursement", "dokumen", "formulir",
   "kwitansi", "resume", "verifikasi", "pengajuan", "batas waktu"]

def limitKeywordList : List String :=
  ["limit", "tahunan", "rawat", "icu", "rp"]

def benefitKeywordList : List String :=
  ["manfaat", "rawat", "icu", "persalinan", "kritis"]

/-- `+2` per matched keyword. -/
def keywordBonus (kws : List String) (txt : String) : Int :=
  kws.foldl (fun acc kw => if hasSub kw txt then acc + 2 else acc) 0

/-- The per-chunk score of the evidence loop in `decision_node` (the chunk
text arrives already lowered via `low`). -/
def scoreChunk (intent : Intent) (plan_l txt : String) : Int :=
  let base : Int :=
    match intent with
    | Intent.claim_requirements =>
      keywordBonus claimKeywordList txt
        + (if hasSub "limit" txt && hasSub "plan" txt then -4 else 0)
        + (if hasSub "bab iv" txt || hasSub "limit dan plan" txt then -6 else 0)
    | Intent.limit_plan =>
      (if plan_l ≠ "" && hasSub plan_l txt then 4 else 0)
        + keywordBonus limitKeywordList txt
    | Intent.plan_benefit =>
      (if plan_l ≠ "" && hasSub plan_l txt then 3 else 0)
        + keywordBonus benefitKeywordList txt
        + (if hasSub "limit dan plan" txt && !hasSub "manfaat" txt then -2 else 0)
    | _ => 0
  base + (if txt.length > 300 then 1 else 0)

/-- One iteration of the best-chunk selection loop (strict improvement;
chunks with empty lowered text are skipped). -/
def evidenceStep (intent : Intent) (plan_l : String)
    (acc : Option Evidence × Int) (e : Evidence) : Option Evidence × Int :=
  let txt := lowS e.text
  if txt = "" then acc
  else if scoreChunk intent plan_l txt > acc.2 then
    (some e, scoreChunk intent plan_l txt)
  else acc

/-- The best-chunk selection loop of `decision_node` (initial score −10). -/
def pickBestEvidence (intent : Intent) (plan_l : String) (evs : List Evidence) :
    Option Evidence × Int :=
  evs.foldl (evidenceStep intent plan_l) ((none : Option Evidence), (-10 : Int))

/-- The `NEED_INPUT` record built when `missing_fields` is non-empty. -/
def needInputDecision (intent : Intent) (missing : List String) : Decision :=
  { intent := intent, status := Status.NEED_INPUT, need := missing }

def isoDatePad (width n : Nat) : String :=
  let s := toString n
  String.mk (List.replicate (width - s.length) '0') ++ s

/-- `date.isoformat()`. -/
def isoDate (d : PyDate) : String :=
  isoDatePad 4 d.y ++ "-" ++ isoDatePad 2 d.m ++ "-" ++ isoDatePad 2 d.d

/-- The `policy_status` branch of `decision_node`. -/
def decidePolicyStatus (env : Env) (s : GraphState) : Decision :=
  let d₀ : Decision :=
    { intent := s.intent, status := Status.NOT_FOUND, no_polis_input := s.no_polis }
  match s.nasabah with
  | none => d₀
  | some nas =>
    if nas.isEmpty then d₀
    else
      match (find_value_by_alias env.sim nas
          ["status_polis", "status polis", "policy_status", "status", "aktif",
           "is_active", "active_status"]).2.1 with
      | some v =>
        { d₀ with status := Status.FOUND, status_polis := some (pyNorm (some v)) }
      | none =>
        let ev := (find_value_by_alias env.sim nas
          ["tanggal_akhir", "akhir_polis", "masa_berlaku_sampai", "expired_date",
           "expiry_date", "end_date", "tanggal_expired", "tgl_akhir",
           "valid_until", "berlaku_sampai"]).2.1
        match parse_date_any env.strp ev with
        | some end_dt =>
          if PyDate.le env.today end_dt then
            { d₀ with
              status := Status.FOUND
              status_polis := some ("Aktif (berdasarkan tanggal akhir " ++ isoDate end_dt ++ ")") }
          else
            { d₀ with
              status := Status.FOUND
              status_polis := some ("Tidak aktif (berdasarkan tanggal akhir " ++ isoDate end_dt ++ ")") }
        | none => { d₀ with status := Status.MISSING_FIELD }

/-- The `policy_plan_lookup` branch of `decision_node`. -/
def decidePlanLookup (env : Env) (s : GraphState) : Decision :=
  let d₀ : Decision :=
    { intent := s.intent, status := Status.NOT_FOUND, no_polis_input := s.no_polis }
  match s.nasabah with
  | none => d₀
  | some nas =>
    if nas.isEmpty then d₀
    else
      match (find_value_by_alias env.sim nas
          ["plan", "jenis_plan", "plan polis", "policy_plan", "tipe_plan"]).2.1 with
      | none => { d₀ with status := Status.MISSING_FIELD }
      | some v => { d₀ with status := Status.FOUND, plan := some (pyNorm (some v)) }

/-- The `cashless_policy` branch of `decision_node`. -/
def decideCashless (env : Env) (s : GraphState) : Decision :=
  let d₀ : Decision :=
    { intent := s.intent, status := Status.NOT_FOUND, no_polis_input := s.no_polis }
  match s.nasabah with
  | none => d₀
  | some nas =>
    if nas.isEmpty then d₀
    else
      match (find_value_by_alias env.sim nas
          ["metode_klaim", "metode klaim", "claim_method", "jenis_klaim",
           "cashless"]).2.1 with
      | none => { d₀ with status := Status.MISSING_FIELD }
      | some v =>
        { d₀ with
          status := Status.FOUND
          metode_klaim := some (pyNorm (some v))
          can_cashless := some (hasSub "cashless" (pyLowOpt (some v))
            || ["ya", "true", "1"].contains (pyLowOpt (some v))) }

/-- The `rs_search` branch of `decision_node`. -/
def decideRsSearch (s : GraphState) : Decision :=
  let rs_list := s.rs_list.getD []
  { intent := s.intent,
    status := if rs_list.isEmpty then Status.NOT_FOUND else Status.FOUND,
    kota := s.kota,
    rs_mode := some s.rs_mode,
    rs_items := (rs_list.take 5).map (fun pl =>
      { nama_rs := rsName pl,
        cashless := cashless_to_ya_tidak (pyGetStr pl "cashless") }) }

/-- The evidence-scoring branch (`claim_requirements` / `limit_plan` /
`plan_benefit`) of `decision_node`. -/
def decideEvidence (m : Memo) (s : GraphState) : Decision :=
  let evs := s.polis_evidence.getD []
  let plan := optOrEmpty (pyOr s.plan_asked m.pending_plan_for_benefit)
  let plan_l := lowS plan
  let best := pickBestEvidence s.intent plan_l evs
  let min_ok : Int := if s.intent = Intent.claim_requirements then 3 else 1
  match best.1 with
  | none => { intent := s.intent, status := Status.NOT_FOUND }
  | some e =>
    if best.2 < min_ok then { intent := s.intent, status := Status.NOT_FOUND }
    else
      let d : Decision :=
        { intent := s.intent, status := Status.FOUND,
          source := e.source, page := e.page,
          quote := some (String.mk ((pyNorm (some e.text)).toList.take 900)) }
      if s.intent = Intent.limit_plan || s.intent = Intent.plan_benefit then
        { d with plan := some plan }
      else d

/-- `decision_node`, split off as the pure decision record plus the memo
effect (`memo_add_topic` in the branches that record a topic). -/
def decisionCore (env : Env) (m : Memo) (s : GraphState) : Decision × Memo :=
  if !s.missing_fields.isEmpty then
    (needInputDecision s.intent s.missing_fields, m)
  else
    match s.intent with
    | Intent.provide_policy_number =>
      ({ intent := s.intent, status := Status.NEED_CHOICE, no_polis := s.no_polis }, m)
    | Intent.policy_status => (decidePolicyStatus env s, memo_add_topic m "Status polis")
    | Intent.policy_plan_lookup => (decidePlanLookup env s, memo_add_topic m "Plan polis")
    | Intent.cashless_policy => (decideCashless env s, memo_add_topic m "Cashless")
    | Intent.rs_search => (decideRsSearch s, memo_add_topic m "RS rekanan")
    | Intent.claim_requirements => (decideEvidence m s, m)
    | Intent.limit_plan => (decideEvidence m s, m)
    | Intent.plan_benefit => (decideEvidence m s, m)
    | _ => ({ intent := s.intent, status := Status.UNKNOWN }, m)

def decision_node (env : Env) (m : Memo) (s : GraphState) : GraphState × Memo :=
  let dm := decisionCore env m s
  ({ s with decision := some dm.1 }, dm.2)

/-! ## Response composer -/

/-- An f-string interpolation of a possibly-`None` value. -/
def optStr : Option String → String
  | some s => s
  | none => "None"

/-- The final fallback template of `answer_from_decision`. -/
def fallbackAnswer : String :=
  "Maaf, saya belum bisa menjawab dari database yang tersedia. Bisa jelaskan maksudnya sedikit? 😊"

/-- `answer_from_decision(d)`: the grounded per-`(intent, status)`
templates. -/
def answer_from_decision (d : Decision) : String :=
  if d.status = Status.NEED_INPUT then
    if d.need.contains "kota" then
      "Boleh sebutkan **kota** yang ingin dicek RS rekanannya? 😊"
    else if d.need.contains "no_polis" then
      "Untuk saya cek di database, saya perlu **no_polis**. Boleh kirim ya 😊"
    else if d.need.contains "plan_asked" then
      "Anda ingin plan yang mana? **Silver / Gold / Platinum** 😊"
    else "Saya perlu data: " ++ String.intercalate ", " d.need
  else if d.status = Status.NEED_CHOICE then
    "Siap 😊 No polis **" ++ optStr d.no_polis ++
      "** sudah saya catat.\nMau dicek: **status / plan / cashless**?"
  else
    match d.intent with
    | Intent.policy_status =>
      if d.status = Status.FOUND then
        "Status polis **" ++ optStr d.no_polis_input ++
          "** (database nasabah): **" ++ optStr d.status_polis ++ "**."
      else if d.status = Status.NOT_FOUND then
        "Maaf, **" ++ optStr d.no_polis_input ++ "** tidak ditemukan di database nasabah."
      else if d.status = Status.MISSING_FIELD then
        "Data polis **" ++ optStr d.no_polis_input ++
          "** ditemukan, tapi **status/masa berlaku** tidak tersedia di database nasabah."
      else fallbackAnswer
    | Intent.policy_plan_lookup =>
      if d.status = Status.FOUND then
        "Plan polis **" ++ optStr d.no_polis_input ++
          "** (database nasabah): **" ++ optStr d.plan ++ "**."
      else if d.status = Status.NOT_FOUND then
        "Maaf, **" ++ optStr d.no_polis_input ++ "** tidak ditemukan di database nasabah."
      else if d.status = Status.MISSING_FIELD then
        "Data polis **" ++ optStr d.no_polis_input ++
          "** ditemukan, tapi field **plan** kosong di database nasabah."
      else fallbackAnswer
    | Intent.cashless_policy =>
      if d.status = Status.FOUND then
        let can := if d.can_cashless.getD false then "bisa" else "tidak"
        "Metode klaim polis **" ++ optStr d.no_polis_input ++
          "** (database nasabah): **" ++ optStr d.metode_klaim ++
          "**. Kesimpulan: **" ++ can ++ " cashless**."
      else if d.status = Status.NOT_FOUND then
        "Maaf, **" ++ optStr d.no_polis_input ++ "** tidak ditemukan di database nasabah."
      else if d.status = Status.MISSING_FIELD then
        "Data polis ditemukan, tapi **metode_klaim** kosong di database sehingga cashless belum bisa dipastikan."
      else fallbackAnswer
    | Intent.rs_search =>
      if d.status = Status.FOUND then
        let mode := d.rs_mode.getD RSMode.all
        let mode_txt :=
          if mode = RSMode.cashless then "cashless"
          else if mode = RSMode.non_cashless then "non-cashless (reimburse)"
          else "semua"
        let header := "RS rekanan di **" ++ optStr d.kota ++ "** (" ++ mode_txt ++ ") (database):"
        let lines := header :: d.rs_items.map (fun it =>
          "- " ++ optStr it.nama_rs ++ " | cashless: " ++ it.cashless)
        String.intercalate "\n" lines
      else
        "Maaf, saya belum menemukan RS rekanan di database untuk kota **" ++
          optStr d.kota ++ "**."
    | Intent.limit_plan =>
      if d.status = Status.FOUND then
        let plan := optOrEmpty d.plan
        let raw := pyNorm d.quote
        let plan_only := pyOrStr (extract_only_plan_section raw plan)
          (String.mk ((joinWords raw).toList.take 220))
        "Limit plan **" ++ plan ++ "** (rujukan buku polis):\n- Hal: " ++
          optStr d.page ++ " | Sumber: " ++ optStr d.source ++
          "\n- Kutipan: " ++ plan_only
      else
        "Maaf, bagian limit plan tersebut **belum ditemukan** di buku polis pada data yang tersimpan."
    | Intent.plan_benefit =>
      if d.status = Status.FOUND then
        let plan := optOrEmpty d.plan
        let raw := pyNorm d.quote
        let plan_only := pyOrStr (extract_only_plan_section raw plan)
          (String.mk ((joinWords raw).toList.take 220))
        "Manfaat/ketentuan terkait plan **" ++ plan ++
          "** (rujukan buku polis):\n- Hal: " ++ optStr d.page ++
          " | Sumber: " ++ optStr d.source ++ "\n- Kutipan: " ++ plan_only
      else
        "Maaf, bagian manfaat plan tersebut **belum ditemukan** di buku polis pada data yang tersimpan."
    | Intent.claim_requirements =>
      if d.status = Status.FOUND then
        let quote := String.mk ((joinWords (pyNorm d.quote)).toList.take 420)
        "Cara/ketentuan klaim (rujukan buku polis):\n- Hal: " ++ optStr d.page ++
          " | Sumber: " ++ optStr d.source ++ "\n- Kutipan: " ++ quote
      else
        "Maaf, bagian **cara/ketentuan klaim** belum ditemukan di buku polis pada data yang tersimpan."
    | _ => fallbackAnswer

/-- The rephrase instruction (f-string head of the message built by
`compose_node`). -/
def LLM_REPHRASE_PROMPT : String :=
  "\nKamu adalah CSO Asuransi Kesehatan yang sopan, ramah, dan ringkas.\n\nATURAN KERAS:\n- Kamu HANYA boleh merapikan redaksi dari teks jawaban yang sudah ada.\n- DILARANG menambah fakta, angka, nama RS, plan, limit, tanggal, atau prosedur baru.\n- Jangan menambahkan informasi yang tidak ada di teks asli.\n- Jika teks asli menyatakan \"tidak ditemukan\", pertahankan maknanya.\n\nKeluaran: versi yang lebih enak dibaca, singkat, jelas, dan tetap sopan.\n"

def rephraseMsg (base : String) : String :=
  LLM_REPHRASE_PROMPT ++ "\n\nTEKS ASLI:\n" ++ base ++ "\n\nTEKS RAPi:\n"

/-- `answer_from_decision(state.get("decision") or {})`: an absent decision
behaves like the empty dict, which matches no template and yields the final
fallback. -/
def baseAnswer (s : GraphState) : String :=
  match s.decision with
  | some d => answer_from_decision d
  | none => fallbackAnswer

/-- `compose_node`: optional rephrase with the empty/exception fail-safe.
`reph` returns `Except.error ()` for a raised call and `ok content` for a
reply whose `.content` is `content` (Python `None` → `none`). -/
def compose_node (use_llm : Bool)
    (reph : String → Except Unit (Option String)) (s : GraphState) : GraphState :=
  let base := baseAnswer s
  if use_llm && base ≠ "" then
    match reph (rephraseMsg base) with
    | Except.error _ => { s with answer := base }
    | Except.ok content =>
      let cleaned := pyStrip (content.getD "")
      { s with answer := if cleaned ≠ "" then cleaned else base }
  else { s with answer := base }

/-! ## Routing -/

/-- `route_after_requirements(state)`. -/
def route_after_requirements (s : GraphState) : String :=
  if !s.missing_fields.isEmpty then "decision"
  else
    match s.intent with
    | Intent.rs_search => "rs"
    | Intent.policy_status => "nasabah"
    | Intent.policy_plan_lookup => "nasabah"
    | Intent.cashless_policy => "nasabah"
    | Intent.limit_plan => "polis"
    | Intent.claim_requirements => "polis"
    | Intent.plan_benefit => "polis"
    | _ => "decision"

/-- One full turn of the compiled graph: `supervisor → requirements →
{rs | nasabah | polis | (none)} → decision → compose`. -/
def runTurn (env : Env) (m : Memo) (q : String) : GraphState × Memo :=
  let sm₁ := supervisor_node m { user_query := q }
  let sm₂ := requirements_node sm₁.2 sm₁.1
  let r := route_after_requirements sm₂.1
  let s₃ :=
    if r = "rs" then rs_node env sm₂.1
    else if r = "nasabah" then nasabah_node env sm₂.2 sm₂.1
    else if r = "polis" then polis_node env sm₂.2 sm₂.1
    else sm₂.1
  let sm₄ := decision_node env sm₂.2 s₃
  (compose_node env.use_llm_rephrase env.rephrase sm₄.1, sm₄.2)

/-! ## Concrete fixtures -/

/-- An environment in which every external call raises or returns nothing. -/
def failEnv : Env :=
  { lookup :=
      { nasabahScroll := fun _ _ => Except.error ()
        nasabahSemantic := fun _ => Except.error () }
    rsScroll := fun _ => Except.error ()
    ragStore := fun _ _ => []
    sim := fun _ _ => 0
    strp := fun _ _ => none
    today := ⟨2026, 1, 1⟩
    use_llm_rephrase := false
    rephrase := fun _ => Except.error () }

/-- A fresh session memory (the dict as initialized on first page load,
after the greeting). -/
def freshMemo : Memo :=
  { no_polis := none, kota := none, pending_slot := none, last_intent := none,
    last_rs_mode := RSMode.all, topics := [], nasabah_key_no_polis := none,
    pending_plan_for_benefit := none, greeted := true }

/-- Session memory after a turn that asked for the city: `pending_slot`
armed to `"kota"`, `last_intent` remembered as `rs_search`. -/
def memoPendingKota : Memo :=
  { freshMemo with pending_slot := some "kota", last_intent := some Intent.rs_search }

/-! ## C10 — idempotence of `compact` -/

theorem toUpper_of_compactKeep (c : Char) (h : compactKeep c = true) :
    c.toUpper = c := by
  unfold compactKeep at h
  simp only [Bool.or_eq_true, Bool.and_eq_true, decide_eq_true_eq] at h
  have hn : c.toNat ≤ 90 := by
    have hz : ('Z'.val.toBitVec.toNat) = 90 := by decide
    have h9 : ('9'.val.toBitVec.toNat) = 57 := by decide
    rcases h with ⟨_, h2⟩ | ⟨_, h2⟩ <;>
    · have h3 := BitVec.le_def.mp (UInt32.le_def.mp (Char.le_def.mp h2))
      simp only [Char.toNat, UInt32.toNat] at *
      omega
  unfold Char.toUpper
  rw [if_neg]
  omega

theorem map_toUpper_filter_compactKeep (l : List Char) :
    (l.filter compactKeep).map Char.toUpper = l.filter compactKeep := by
  induction l with
  | nil => simp
  | cons c t ih =>
    by_cases h : compactKeep c
    · simp [List.filter_cons, h, toUpper_of_compactKeep c h, ih]
    · simp [List.filter_cons, h, ih]

/-- C10: `compact` (uppercase, then keep only `[A-Z0-9]`) is idempotent:
for every string `t`, `compact (compact t) = compact t`. -/
theorem compact_idempotent (t : String) : compact (compact t) = compact t := by
  unfold compact
  congr 1
  have h1 : (String.mk ((t.toList.map Char.toUpper).filter compactKeep)).toList
      = (t.toList.map Char.toUpper).filter compactKeep := rfl
  rw [h1, map_toUpper_filter_compactKeep]
  refine List.filter_eq_self.mpr ?_
  intro a ha
  exact List.of_mem_filter ha

/-! ## C1 — the pending-city slot-filling turn -/

/-- C1 (code-bug evidence): with `pending_slot = "kota"` and
`last_intent = rs_search`, the turn on the city-only utterance `"Bandung"`
does write the city slot and clear the pending slot, but the turn's computed
intent is `unknown`, not the prior `last_intent` (`rs_search`):
`apply_slot_filling` clears `pending_slot` before `classify_intent` reads
it, so the classifier's continuation branch cannot fire on exactly the turn
that fills the awaited slot. -/
theorem turn_after_city_fill_loses_intent :
    (runTurn failEnv memoPendingKota "Bandung").1.intent = Intent.unknown ∧
    (runTurn failEnv memoPendingKota "Bandung").1.intent ≠ Intent.rs_search ∧
    (runTurn failEnv memoPendingKota "Bandung").2.kota = some "Bandung" ∧
    (runTurn failEnv memoPendingKota "Bandung").2.pending_slot = none ∧
    memoPendingKota.last_intent = some Intent.rs_search := by
  refine ⟨rfl, ?_, rfl, rfl, rfl⟩
  intro h
  rw [show (runTurn failEnv memoPendingKota "Bandung").1.intent = Intent.unknown
    from rfl] at h
  exact Intent.noConfusion h

/-! ## C6 — the `rs_search` example utterance -/

/-- C6 (counterexample): for the utterance
`"rumah sakit rekanan di Bandung yang reimburse"` with no pending slot, the
classifier does not return `rs_search` — the claim-keyword check (whose list
contains `"reimburse"`) precedes the hospital-keyword check in the
cascade. -/
theorem classify_bandung_reimburse_not_rs :
    ¬ (classify_intent freshMemo "rumah sakit rekanan di Bandung yang reimburse"
        = Intent.rs_search) := by
  intro h
  rw [show classify_intent freshMemo "rumah sakit rekanan di Bandung yang reimburse"
      = Intent.claim_requirements from rfl] at h
  exact Intent.noConfusion h

/-- C6 (amended): for that utterance `classify_intent` returns
`claim_requirements` (claim keywords match `"reimburse"` and rank above the
hospital keywords), while city extraction returns `"Bandung"` and rs-mode
detection returns `non_cashless` as claimed. -/
theorem classify_bandung_reimburse_results :
    classify_intent freshMemo "rumah sakit rekanan di Bandung yang reimburse"
      = Intent.claim_requirements ∧
    extract_city "rumah sakit rekanan di Bandung yang reimburse" = some "Bandung" ∧
    detect_rs_mode "rumah sakit rekanan di Bandung yang reimburse"
      = some RSMode.non_cashless :=
  ⟨rfl, rfl, rfl⟩

/-! ## C2 — groundedness of the final answer -/

/-- Every string field of a decision record (including the f-string
rendering `optStr` of the optional ones and the hospital items). -/
def decisionStrings (d : Decision) : List String :=
  d.need ++
    [optStr d.no_polis, optStr d.no_polis_input, optStr d.status_polis,
     optStr d.plan, optStr d.metode_klaim, optStr d.kota, optStr d.source,
     optStr d.page, optStr d.quote] ++
    d.rs_items.map (fun it => optStr it.nama_rs ++ it.cashless)

def hasDigitStr (s : String) : Bool :=
  s.toList.any Char.isDigit

/-- No digit occurs in any string field of the decision. -/
def decisionDigitFree (d : Decision) : Bool :=
  (decisionStrings d).all (fun s => !hasDigitStr s)

def unknownDecision : Decision :=
  { intent := Intent.unknown, status := Status.UNKNOWN }

/-- C2 (counterexample): a rephrase reply that invents a phone number is
used verbatim as the final answer.  The decision record contains no digit in
any field, yet the turn's answer does — so the rephrasing step can introduce
a numeric value absent from the decision; the code guards only against
empty/whitespace output, not against new facts. -/
theorem rephrase_can_add_number :
    decisionDigitFree unknownDecision = true ∧
    hasDigitStr ((compose_node true (fun _ => Except.ok (some "Hubungi 0812."))
      { user_query := "", decision := some unknownDecision }).answer) = true :=
  ⟨rfl, rfl⟩

/-- C2 (amended): the composed answer is always either the grounded template
rendered from the decision (when rephrasing is disabled, raises, or strips
to empty) or the rephrase service's nonempty output taken verbatim; the code
itself applies no groundedness check to a nonempty rephrased text, so the
no-new-facts property holds only as a contract on the external service. -/
theorem compose_answer_template_or_verbatim (use_llm : Bool)
    (reph : String → Except Unit (Option String)) (s : GraphState) :
    (compose_node use_llm reph s).answer = baseAnswer s ∨
    (∃ c, reph (rephraseMsg (baseAnswer s)) = Except.ok c ∧
      pyStrip (c.getD "") ≠ "" ∧
      (compose_node use_llm reph s).answer = pyStrip (c.getD "")) := by
  unfold compose_node
  dsimp only
  split
  · cases hr : reph (rephraseMsg (baseAnswer s)) with
    | error e => simp
    | ok content =>
      by_cases hc : pyStrip (content.getD "") = ""
      · left
        simp [hc]
      · right
        exact ⟨content, rfl, hc, by simp [hc]⟩
  · left
    rfl

/-! ## C8 — the rephrase fail-safe -/

/-- C8: whenever the rephrase call raises, or returns a reply whose content
(Python `None` read as `""`) strips to the empty string, the final answer
equals the grounded template text unchanged. -/
theorem rephrase_failure_keeps_base (use_llm : Bool)
    (reph : String → Except Unit (Option String)) (s : GraphState)
    (h : reph (rephraseMsg (baseAnswer s)) = Except.error () ∨
      ∃ c, reph (rephraseMsg (baseAnswer s)) = Except.ok c ∧ pyStrip (c.getD "") = "") :
    (compose_node use_llm reph s).answer = baseAnswer s := by
  unfold compose_node
  dsimp only
  split
  · rcases h with h | ⟨c, hc, hs⟩
    · simp [h]
    · simp [hc, hs]
  · rfl

theorem rephrase_failure_keeps_base_witness :
    (compose_node true (fun _ => Except.error ()) { user_query := "" }).answer
      = baseAnswer { user_query := "" } :=
  rephrase_failure_keeps_base true (fun _ => Except.error ())
    { user_query := "" } (Or.inl rfl)

/-! ## C5 — the policy-number variant lookup -/

/-- C5: for the raw input `"pol-002-2024"` the variant set contains the
compacted form `"POL0022024"` and the dash-segmented forms `"POL-002-2024"`
and `"POL-00-22024"`; and against any store holding exactly the record keyed
`"POL-002-2024"` (with an arbitrary nonempty payload `P`), the exact-variant
loop returns that record with `found = true` while the semantic fallback is
never invoked (`semanticUsed = false`), for every session memory and every
behaviour of the semantic path. -/
theorem variant_lookup_pol_002_2024 (m : Memo)
    (sem : String → Except Unit (Option Payload)) (P : Payload) (hP : P ≠ [])
    (store : String → String → Except Unit (Option Payload))
    (hstore : ∀ k v, store k v
      = Except.ok (if v = "POL-002-2024" then some P else none)) :
    ("POL0022024" ∈ no_polis_variants "pol-002-2024" ∧
     "POL-002-2024" ∈ no_polis_variants "pol-002-2024" ∧
     "POL-00-22024" ∈ no_polis_variants "pol-002-2024") ∧
    ((tool_lookup_nasabah ⟨store, sem⟩ m "pol-002-2024").found = true ∧
     (tool_lookup_nasabah ⟨store, sem⟩ m "pol-002-2024").nasabah = some P ∧
     (tool_lookup_nasabah ⟨store, sem⟩ m "pol-002-2024").semanticUsed = false ∧
     (tool_lookup_nasabah ⟨store, sem⟩ m "pol-002-2024").tried
        = ["POL-002-2024", "POL0022024", "POL-00-22024"]) := by
  have hv : no_polis_variants "pol-002-2024"
      = ["POL-002-2024", "POL0022024", "POL-00-22024"] := rfl
  have hPe : P.isEmpty = false := by
    cases P with
    | nil => exact absurd rfl hP
    | cons a t => rfl
  have hfirst : ∀ key,
      firstVariantHit store key ["POL-002-2024", "POL0022024", "POL-00-22024"]
        = some P := by
    intro key
    unfold firstVariantHit
    rw [hstore]
    simp [hPe]
  constructor
  · rw [hv]
    exact ⟨by simp, by simp, by simp⟩
  · unfold tool_lookup_nasabah
    simp [hv, hfirst]

/-- The store of the C5 witness: exactly one record, keyed
`"POL-002-2024"`. -/
def onlyPol2024Store : String → String → Except Unit (Option Payload) :=
  fun _ v => Except.ok (if v = "POL-002-2024"
    then some [("no_polis", some "POL-002-2024"), ("plan", some "Gold")]
    else none)

theorem variant_lookup_pol_002_2024_witness :
    ("POL0022024" ∈ no_polis_variants "pol-002-2024" ∧
     "POL-002-2024" ∈ no_polis_variants "pol-002-2024" ∧
     "POL-00-22024" ∈ no_polis_variants "pol-002-2024") ∧
    ((tool_lookup_nasabah ⟨onlyPol2024Store, fun _ => Except.error ()⟩
        freshMemo "pol-002-2024").found = true ∧
     (tool_lookup_nasabah ⟨onlyPol2024Store, fun _ => Except.error ()⟩
        freshMemo "pol-002-2024").nasabah
        = some [("no_polis", some "POL-002-2024"), ("plan", some "Gold")] ∧
     (tool_lookup_nasabah ⟨onlyPol2024Store, fun _ => Except.error ()⟩
        freshMemo "pol-002-2024").semanticUsed = false ∧
     (tool_lookup_nasabah ⟨onlyPol2024Store, fun _ => Except.error ()⟩
        freshMemo "pol-002-2024").tried
        = ["POL-002-2024", "POL0022024", "POL-00-22024"]) :=
  variant_lookup_pol_002_2024 freshMemo (fun _ => Except.error ())
    [("no_polis", some "POL-002-2024"), ("plan", some "Gold")] (by decide)
    onlyPol2024Store (fun _ _ => rfl)

/-! ## C7 — lookup adapters fail closed -/

/-- A failed variant query: raised, no hit, or a hit with a falsy payload. -/
def variantMiss : Except Unit (Option Payload) → Bool
  | Except.error _ => true
  | Except.ok none => true
  | Except.ok (some p) => p.isEmpty

theorem firstVariantHit_none
    (store : String → String → Except Unit (Option Payload)) (key : String)
    (vs : List String) (h : ∀ v ∈ vs, variantMiss (store key v) = true) :
    firstVariantHit store key vs = none := by
  induction vs with
  | nil => rfl
  | cons v rest ih =>
    have hv := h v (by simp)
    have hrest : ∀ w ∈ rest, variantMiss (store key w) = true :=
      fun w hw => h w (by simp [hw])
    unfold firstVariantHit
    cases hsv : store key v with
    | error e => exact ih hrest
    | ok op =>
      cases op with
      | none => exact ih hrest
      | some p =>
        have hpe : p.isEmpty = true := by rw [hsv] at hv; exact hv
        simp [hpe, ih hrest]

/-- C7: external-store failures never escape the lookup adapters.  When
every exact-variant query misses or raises (for whatever key the adapter
uses) and the semantic fallback also misses or raises,
`tool_lookup_nasabah` returns `found = false` with no record (it is a total
function — every exception is caught inside it); and when the hospital-store
query raises, `tool_lookup_rs` returns the empty list.  Failures therefore
reach the decision synthesizer only as empty/not-found results. -/
theorem lookup_adapters_fail_closed (env : LookupEnv) (m : Memo) (raw : String)
    (rsq : List (String × String) → Except Unit (List Payload))
    (kota : String) (mode : RSMode)
    (hvar : ∀ key, ∀ v ∈ no_polis_variants raw,
      variantMiss (env.nasabahScroll key v) = true)
    (hsem : variantMiss (env.nasabahSemantic (normalize_no_polis raw)) = true)
    (hrs : rsq (rsFilter kota mode) = Except.error ()) :
    (tool_lookup_nasabah env m raw).found = false ∧
    (tool_lookup_nasabah env m raw).nasabah = none ∧
    tool_lookup_rs rsq kota mode = [] := by
  have hfv : ∀ key,
      firstVariantHit env.nasabahScroll key (no_polis_variants raw) = none :=
    fun key => firstVariantHit_none _ _ _ (hvar key)
  have hAB : (tool_lookup_nasabah env m raw).found = false ∧
      (tool_lookup_nasabah env m raw).nasabah = none := by
    unfold tool_lookup_nasabah
    simp only [hfv]
    cases hs : env.nasabahSemantic (normalize_no_polis raw) with
    | error e => exact ⟨rfl, rfl⟩
    | ok op =>
      cases op with
      | none => exact ⟨rfl, rfl⟩
      | some p =>
        have hpe : p.isEmpty = true := by rw [hs] at hsem; exact hsem
        simp [hpe]
  refine ⟨hAB.1, hAB.2, ?_⟩
  unfold tool_lookup_rs
  rw [hrs]

theorem lookup_adapters_fail_closed_witness :
    (tool_lookup_nasabah failEnv.lookup freshMemo "X").found = false ∧
    (tool_lookup_nasabah failEnv.lookup freshMemo "X").nasabah = none ∧
    tool_lookup_rs failEnv.rsScroll "Bandung" RSMode.all = [] :=
  lookup_adapters_fail_closed failEnv.lookup freshMemo "X" failEnv.rsScroll
    "Bandung" RSMode.all (fun _ _ _ => rfl) rfl rfl

/-! ## C9 — stored slots persist through a turn that yields no new value -/

theorem pyOr_none_left (b : Option String) : pyOr none b = b := rfl

theorem memo_set_no_polis_val (m : Memo) (v : Option String) :
    (memo_set m "no_polis" v).no_polis = if truthyS v then v else m.no_polis := by
  unfold memo_set
  split <;> rfl

theorem memo_set_kota_val (m : Memo) (v : Option String) :
    (memo_set m "kota" v).kota = if truthyS v then v else m.kota := by
  unfold memo_set
  split <;> rfl

theorem memo_set_no_polis_preserves_kota (m : Memo) (v : Option String) :
    (memo_set m "no_polis" v).kota = m.kota := by
  unfold memo_set
  split <;> rfl

theorem memo_set_kota_preserves_no_polis (m : Memo) (v : Option String) :
    (memo_set m "kota" v).no_polis = m.no_polis := by
  unfold memo_set
  split <;> rfl

theorem memo_add_topic_no_polis (m : Memo) (t : String) :
    (memo_add_topic m t).no_polis = m.no_polis := by
  unfold memo_add_topic
  split <;> rfl

theorem memo_add_topic_kota (m : Memo) (t : String) :
    (memo_add_topic m t).kota = m.kota := by
  unfold memo_add_topic
  split <;> rfl

theorem aslf_memo_slots (q : String) (m : Memo) (s : GraphState) :
    (apply_slot_filling q m s).2.no_polis = m.no_polis ∧
    (apply_slot_filling q m s).2.kota = m.kota := by
  unfold apply_slot_filling
  dsimp only
  split_ifs <;> exact ⟨rfl, rfl⟩

theorem aslf_state_no_polis (q : String) (m : Memo) (s : GraphState)
    (h : truthyS (extract_entities q).no_polis = false) :
    (apply_slot_filling q m s).1.no_polis = s.no_polis := by
  unfold apply_slot_filling
  dsimp only
  split_ifs <;> simp_all

theorem aslf_state_kota (q : String) (m : Memo) (s : GraphState)
    (h : truthyS (extract_entities q).kota = false) :
    (apply_slot_filling q m s).1.kota = s.kota := by
  unfold apply_slot_filling
  dsimp only
  split_ifs <;> simp_all

theorem requirements_memo_no_polis (m : Memo) (s : GraphState) :
    (requirements_node m s).2.no_polis = m.no_polis := rfl

theorem requirements_memo_kota (m : Memo) (s : GraphState) :
    (requirements_node m s).2.kota = m.kota := rfl

theorem decision_node_memo_no_polis (env : Env) (m : Memo) (s : GraphState) :
    (decision_node env m s).2.no_polis = m.no_polis := by
  unfold decision_node decisionCore
  dsimp only
  split
  · rfl
  · split <;> first | rfl | exact memo_add_topic_no_polis m _

theorem decision_node_memo_kota (env : Env) (m : Memo) (s : GraphState) :
    (decision_node env m s).2.kota = m.kota := by
  unfold decision_node decisionCore
  dsimp only
  split
  · rfl
  · split <;> first | rfl | exact memo_add_topic_kota m _

theorem supervisor_memo_no_polis (m : Memo) (s : GraphState)
    (h1 : (extract_entities s.user_query).no_polis = none)
    (h2 : s.no_polis = none) :
    (supervisor_node m s).2.no_polis = m.no_polis := by
  have ht : truthyS (extract_entities s.user_query).no_polis = false := by
    rw [h1]; rfl
  have ha := aslf_state_no_polis s.user_query m s ht
  have hm := (aslf_memo_slots s.user_query m s).1
  unfold supervisor_node
  dsimp only
  cases detect_rs_mode s.user_query <;>
  · try dsimp only
    split_ifs <;>
    · try dsimp only
      rw [memo_set_kota_preserves_no_polis, memo_set_no_polis_val]
      try dsimp only
      rw [ha, h2, h1]
      simp [pyOr_none_left, hm]

theorem supervisor_memo_kota (m : Memo) (s : GraphState)
    (h1 : (extract_entities s.user_query).kota = none)
    (h2 : s.kota = none) :
    (supervisor_node m s).2.kota = m.kota := by
  have ht : truthyS (extract_entities s.user_query).kota = false := by
    rw [h1]; rfl
  have ha := aslf_state_kota s.user_query m s ht
  have hm := (aslf_memo_slots s.user_query m s).2
  unfold supervisor_node
  dsimp only
  cases detect_rs_mode s.user_query <;>
  · try dsimp only
    split_ifs <;>
    · try dsimp only
      rw [memo_set_kota_val]
      try dsimp only
      rw [ha, h2, h1]
      simp [pyOr_none_left, memo_set_no_polis_preserves_kota, hm]

/-- C9: a stored slot survives a turn that yields no new value for it.
`memo_set` never writes a falsy (missing or empty) value, and when the turn
extracts nothing for a slot (the turn state starts empty), the session
memory's stored value after the full turn equals the value before it. -/
theorem memo_slots_frame (env : Env) (m : Memo) (q : String) :
    (∀ k v, truthyS v = false → memo_set m k v = m) ∧
    ((extract_entities q).no_polis = none →
      ((runTurn env m q).2).no_polis = m.no_polis) ∧
    ((extract_entities q).kota = none →
      ((runTurn env m q).2).kota = m.kota) := by
  refine ⟨?_, ?_, ?_⟩
  · intro k v hv
    unfold memo_set
    simp [hv]
  · intro h1
    unfold runTurn
    dsimp only
    rw [decision_node_memo_no_polis, requirements_memo_no_polis]
    exact supervisor_memo_no_polis m { user_query := q } h1 rfl
  · intro h1
    unfold runTurn
    dsimp only
    rw [decision_node_memo_kota, requirements_memo_kota]
    exact supervisor_memo_kota m { user_query := q } h1 rfl

theorem memo_slots_frame_witness :
    memo_set freshMemo "kota" none = freshMemo ∧
    ((runTurn failEnv freshMemo "halo").2).no_polis = freshMemo.no_polis ∧
    ((runTurn failEnv freshMemo "halo").2).kota = freshMemo.kota := by
  have h := memo_slots_frame failEnv freshMemo "halo"
  exact ⟨h.1 "kota" none rfl, h.2.1 rfl, h.2.2 rfl⟩

/-! ## C3 — NEED_INPUT iff missing fields, pending-slot arming, routing -/

theorem decidePolicyStatus_not_need_input (env : Env) (s : GraphState) :
    (decidePolicyStatus env s).status ≠ Status.NEED_INPUT := by
  unfold decidePolicyStatus
  intro h
  repeat' first | split at h | dsimp only at h
  all_goals simp_all

theorem decidePlanLookup_not_need_input (env : Env) (s : GraphState) :
    (decidePlanLookup env s).status ≠ Status.NEED_INPUT := by
  unfold decidePlanLookup
  intro h
  repeat' first | split at h | dsimp only at h
  all_goals simp_all

theorem decideCashless_not_need_input (env : Env) (s : GraphState) :
    (decideCashless env s).status ≠ Status.NEED_INPUT := by
  unfold decideCashless
  intro h
  repeat' first | split at h | dsimp only at h
  all_goals simp_all

theorem decideRsSearch_not_need_input (s : GraphState) :
    (decideRsSearch s).status ≠ Status.NEED_INPUT := by
  unfold decideRsSearch
  intro h
  repeat' first | split at h | dsimp only at h
  all_goals simp_all

theorem decideEvidence_not_need_input (m : Memo) (s : GraphState) :
    (decideEvidence m s).status ≠ Status.NEED_INPUT := by
  unfold decideEvidence
  intro h
  repeat' first | split at h | dsimp only at h
  all_goals simp_all

theorem decisionCore_not_need_input (env : Env) (m : Memo) (s : GraphState)
    (h : s.missing_fields = []) :
    (decisionCore env m s).1.status ≠ Status.NEED_INPUT := by
  unfold decisionCore
  rw [h]
  cases hi : s.intent <;>
    simp [decidePolicyStatus_not_need_input, decidePlanLookup_not_need_input,
      decideCashless_not_need_input, decideRsSearch_not_need_input,
      decideEvidence_not_need_input]

/-- C3: the decision's status is `NEED_INPUT` exactly when the turn's
`missing_fields` list is non-empty (and then its `need` field is that very
list); `requirements_node` arms `pending_slot` to the head of the missing
list (clearing it to `None` when nothing is missing); and a non-empty
missing list routes the turn straight to the decision node, so no lookup
node runs. -/
theorem need_input_iff_missing (env : Env) (m m' : Memo) (s s' : GraphState) :
    ((requirements_node m s).2.pending_slot
        = (requirements_node m s).1.missing_fields.head?) ∧
    ((requirements_node m s).1.missing_fields ≠ [] →
      route_after_requirements (requirements_node m s).1 = "decision") ∧
    ((decisionCore env m' s').1.status = Status.NEED_INPUT ↔
      s'.missing_fields ≠ []) ∧
    ((decisionCore env m' s').1.status = Status.NEED_INPUT →
      (decisionCore env m' s').1.need = s'.missing_fields) := by
  have hne : ∀ (l : List String), l ≠ [] → l.isEmpty = false := by
    intro l hl
    cases l with
    | nil => exact absurd rfl hl
    | cons a t => rfl
  refine ⟨rfl, ?_, ⟨?_, ?_⟩, ?_⟩
  · intro h
    unfold route_after_requirements
    rw [hne _ h]
    rfl
  · intro h
    by_cases hm : s'.missing_fields = []
    · exact absurd h (decisionCore_not_need_input env m' s' hm)
    · exact hm
  · intro h
    unfold decisionCore
    rw [hne _ h]
    rfl
  · intro h
    by_cases hm : s'.missing_fields = []
    · exact absurd h (decisionCore_not_need_input env m' s' hm)
    · unfold decisionCore
      rw [hne _ hm]
      rfl

/-- A turn state that asked for hospitals without naming a city. -/
def rsStateNoCity : GraphState :=
  { user_query := "", intent := Intent.rs_search }

/-- The same turn after `requirements_node` found the city missing. -/
def rsStateMissingCity : GraphState :=
  { user_query := "", intent := Intent.rs_search, missing_fields := ["kota"] }

theorem need_input_iff_missing_witness :
    ((requirements_node freshMemo rsStateNoCity).2.pending_slot
      = (requirements_node freshMemo rsStateNoCity).1.missing_fields.head?) ∧
    route_after_requirements (requirements_node freshMemo rsStateNoCity).1
      = "decision" ∧
    (decisionCore failEnv freshMemo rsStateMissingCity).1.status
      = Status.NEED_INPUT ∧
    (decisionCore failEnv freshMemo rsStateMissingCity).1.need
      = rsStateMissingCity.missing_fields := by
  have h := need_input_iff_missing failEnv freshMemo freshMemo rsStateNoCity
    rsStateMissingCity
  exact ⟨h.1, h.2.1 (by decide), h.2.2.1.mpr (by decide),
    h.2.2.2 (h.2.2.1.mpr (by decide))⟩

/-! ## C4 — the claim-requirements evidence floor -/

/-- The claim-requirements rubric ignores the plan string. -/
theorem scoreChunk_claim_plan_irrel (a b txt : String) :
    scoreChunk Intent.claim_requirements a txt
      = scoreChunk Intent.claim_requirements b txt := rfl

theorem evidence_foldl_snd_lt (intent : Intent) (plan_l : String) (bound : Int)
    (evs : List Evidence) (acc : Option Evidence × Int)
    (hacc : acc.2 < bound)
    (h : ∀ e ∈ evs, scoreChunk intent plan_l (lowS e.text) < bound) :
    (evs.foldl (evidenceStep intent plan_l) acc).2 < bound := by
  induction evs generalizing acc with
  | nil => exact hacc
  | cons e rest ih =>
    have he := h e (by simp)
    have hrest : ∀ x ∈ rest, scoreChunk intent plan_l (lowS x.text) < bound :=
      fun x hx => h x (by simp [hx])
    rw [List.foldl_cons]
    refine ih _ ?_ hrest
    unfold evidenceStep
    dsimp only
    split_ifs with h1 h2
    · exact hacc
    · exact he
    · exact hacc

theorem decideEvidence_claim_nf (m : Memo) (s : GraphState)
    (hintent : s.intent = Intent.claim_requirements)
    (hlow : ∀ e ∈ s.polis_evidence.getD [],
      scoreChunk Intent.claim_requirements "" (lowS e.text) < 3) :
    decideEvidence m s = { intent := s.intent, status := Status.NOT_FOUND } := by
  unfold decideEvidence
  dsimp only
  have hb : (pickBestEvidence s.intent
      (lowS (optOrEmpty (pyOr s.plan_asked m.pending_plan_for_benefit)))
      (s.polis_evidence.getD [])).2 < 3 := by
    rw [hintent]
    refine evidence_foldl_snd_lt _ _ _ _ _ (by decide) ?_
    intro e he
    rw [scoreChunk_claim_plan_irrel _ ""]
    exact hlow e he
  rcases hp : pickBestEvidence s.intent
      (lowS (optOrEmpty (pyOr s.plan_asked m.pending_plan_for_benefit)))
      (s.polis_evidence.getD []) with ⟨b, sc⟩
  rw [hp] at hb
  dsimp only at hb
  cases b with
  | none => rfl
  | some e =>
    have hmin : (if s.intent = Intent.claim_requirements then (3 : Int) else 1) = 3 := by
      rw [hintent]
      simp
    rw [hmin]
    dsimp only
    rw [if_pos hb]

/-- C4: for the `claim_requirements` intent the decision synthesizer never
selects an evidence chunk scoring below the floor 3 — whenever every chunk
scores below 3 (even a sole candidate), the decision's status is `NOT_FOUND`
and no `source`, `page` or `quote` field is emitted. -/
theorem claim_evidence_floor (env : Env) (m : Memo) (s : GraphState)
    (hintent : s.intent = Intent.claim_requirements)
    (hmiss : s.missing_fields = [])
    (hlow : ∀ e ∈ s.polis_evidence.getD [],
      scoreChunk Intent.claim_requirements "" (lowS e.text) < 3) :
    (decisionCore env m s).1.status = Status.NOT_FOUND ∧
    (decisionCore env m s).1.source = none ∧
    (decisionCore env m s).1.page = none ∧
    (decisionCore env m s).1.quote = none := by
  have hde := decideEvidence_claim_nf m s hintent hlow
  have hred : decisionCore env m s = (decideEvidence m s, m) := by
    unfold decisionCore
    rw [hmiss, hintent]
    rfl
  rw [hred, hde]
  exact ⟨rfl, rfl, rfl, rfl⟩

/-- A claim-requirements turn whose only retrieved chunk is off-topic. -/
def claimLowEvidenceState : GraphState :=
  { user_query := "", intent := Intent.claim_requirements,
    polis_evidence := some [⟨some "3", some "buku.pdf", "halo dunia"⟩] }

theorem claim_evidence_floor_witness :
    (decisionCore failEnv freshMemo claimLowEvidenceState).1.status
        = Status.NOT_FOUND ∧
    (decisionCore failEnv freshMemo claimLowEvidenceState).1.source = none ∧
    (decisionCore failEnv freshMemo claimLowEvidenceState).1.page = none ∧
    (decisionCore failEnv freshMemo claimLowEvidenceState).1.quote = none :=
  claim_evidence_floor failEnv freshMemo claimLowEvidenceState
    rfl rfl (by decide)

end CSO
